import Mathlib

/-!
Shallow embedding of the DiffEdit repository (src/diff_edit/model/diff_edit_model.py).

The repository is a façade class `DiffEdit` around external diffusion-pipeline
collaborators.  The façade methods (`get_mask`, `refine_mask`, `create_mask`,
`save_mask`, `save_inpainted_image`, `load_mask`, `inpaint_mask_with_prompt`,
`demo_diffedit`, `_get_embedding_for_prompt`, `__init__`, `to`) are embedded
faithfully below, with the filesystem passed as explicit state and Python
exceptions as `Except` errors.  The collaborator modules
(`diff_edit.model.constants`, `ImageProcessor`, `MaskGenerator`, `Inpainter`)
are part of the repository but their sources are not available here; they are
modelled from the spec, each in a definition whose doc comment starts with
`Modelled from the spec:`.
-/

set_option autoImplicit false

namespace DiffEditSpec

/-- Modelled from the spec: `IMG_RESIZE_DIM` from `diff_edit.model.constants`
(file not available).  The spec fixes a "fixed square resolution after a
mandatory resize step"; the concrete value is immaterial to the claims. -/
def IMG_RESIZE_DIM : Nat := 512

/-- Modelled from the spec: `TORCH_SEED` from `diff_edit.model.constants`
(file not available), the default seed controlling pseudo-random noise. -/
def TORCH_SEED : Nat := 42

/-- Modelled from the spec: `VAE_CONST` from `diff_edit.model.constants`
(file not available), the scaling constant applied when encoding an image
into the autoencoder latent space. -/
def VAE_CONST : Int := 7

/-- A PIL image: width, height and the flattened pixel byte data. -/
structure Image where
  width : Nat
  height : Nat
  data : List Nat
deriving DecidableEq

/-- Modelled from the spec: `PIL.Image.resize` (external library).  The
resampling of pixel content is abstracted to a deterministic crop/pad; what
matters for the spec is that the result has exactly the requested
dimensions and is a pure function of the input. -/
def Image.resize (im : Image) (w h : Nat) : Image :=
  ⟨w, h, (List.range (w * h)).map (fun i => im.data.getD i 0)⟩

/-- `PIL.Image.copy` returns an equal image detached from its file handle. -/
def Image.copy (im : Image) : Image := im

/-- Content of a file created by `open(path, "wb")` and then left unwritten
because the body of the `with` block raised. -/
def Image.empty : Image := ⟨0, 0, []⟩

/-- Python exceptions raised by the embedded code. -/
inductive PyErr where
  | valueError (msg : String)
  | fileNotFound (msg : String)
  | attributeError (msg : String)
deriving DecidableEq

/-- The filesystem, mapping a path to the image stored at it, if any.
Bitmap encoding/decoding by PIL is modelled as the identity on the image:
the spec states persistence is byte-identical (lossless `.bmp` files). -/
def FS : Type := String → Option Image

/-- Writing a file: `open(path, "wb")` followed by `image.save(f)`. -/
def fsWrite (fs : FS) (p : String) (im : Image) : FS :=
  fun q => if q = p then some im else fs q

/-- Embedding of `os.path.exists`. -/
def os_path_exists (fs : FS) (p : String) : Bool := (fs p).isSome

/-- Embedding of `os.path.join` for the relative paths this code uses: the
second component is appended, inserting a separator unless the first
component is empty or already ends with a separator. -/
def os_path_join (a b : String) : String :=
  if a = "" then b
  else if a.data.getLast? = some '/' then a ++ b
  else a ++ "/" ++ b

/-- Modelled from the spec: the external CLIP tokenizer (third-party
`transformers` collaborator), converting a text prompt to token ids. -/
def clip_tokenize (p : String) : List Nat := p.data.map (fun c => c.toNat % 49408)

/-- Modelled from the spec: `tokenizer.model_max_length`, the fixed maximum
token length of the external tokenizer. -/
def model_max_length : Nat := 77

/-- Modelled from the spec: the tokenizer's padding token id. -/
def PAD_TOKEN_ID : Nat := 0

/-- Embedding of the tokenizer call
`tokenizer([prompt], padding="max_length", max_length=model_max_length,
truncation=True)`: longer prompts truncated, shorter padded. -/
def tokenizeToMaxLength (p : String) : List Nat :=
  let t := clip_tokenize p
  t.take model_max_length ++ List.replicate (model_max_length - t.length) PAD_TOKEN_ID

/-- Modelled from the spec: the embedding width of the external text encoder. -/
def EMB_DIM : Nat := 4

/-- Modelled from the spec: the external CLIP text encoder; one embedding row
per input token, deterministic in the tokens.  The second component models
the autograd tape: a forward op is recorded only when gradient tracking is
enabled, so running under `torch.no_grad()` leaves the tape empty. -/
def clip_text_encoder (ids : List Nat) (gradEnabled : Bool) :
    List (List Int) × List String :=
  (ids.map (fun t => (List.range EMB_DIM).map (fun j => (Int.ofNat t + 1) * (Int.ofNat j + 1))),
   if gradEnabled then ["text_encoder_forward"] else [])

/-- Embedding of `DiffEdit._get_embedding_for_prompt`: tokenize to the fixed
maximum length, then run the text encoder inside `torch.no_grad()`
(gradient tracking disabled, hence the `false` flag). -/
def DiffEdit.get_embedding_for_prompt (prompt : String) : List (List Int) × List String :=
  clip_text_encoder (tokenizeToMaxLength prompt) false

/-- Modelled from the spec: `ImageProcessor.img2latent` (source not
available): deterministic encoding of an image into the autoencoder latent
space, scaled by `VAE_CONST`. -/
def ImageProcessor.img2latent (im : Image) (c : Int) : List Int :=
  im.data.map (fun p => c * Int.ofNat p)

/-- Modelled from the spec: `ImageProcessor.get_blended_mask` (source not
available): overlays the mask region of the image with a tint at fixed
opacity for human inspection, without mutating its inputs. -/
def ImageProcessor.get_blended_mask (im : Image) (mask : Image) : Image :=
  ⟨im.width, im.height,
   (List.range im.data.length).map (fun i =>
     if mask.data.getD i 0 = 255 then (im.data.getD i 0 + 255) / 2 else im.data.getD i 0)⟩

/-- Modelled from the spec: the per-iteration noise sample, derived from the
seed combined with the iteration index - distinct noise per iteration but
deterministic given the seed. -/
def deriveNoise (seed iter len : Nat) : List Int :=
  (List.range len).map (fun i => Int.ofNat ((seed + 7919 * iter + 104729 * i) % 251))

/-- Modelled from the spec: one conditioned reverse-diffusion trajectory,
collapsed to its aggregated noise prediction; deterministic in the latent,
the noise sample and the conditioning embedding. -/
def predictNoise (latent noise emb : List Int) : List Int :=
  (List.zipWith (fun l nz => l + nz) latent noise).enum.map
    (fun pr => pr.2 + emb.getD (pr.1 % (emb.length + 1)) 0)

/-- Modelled from the spec: the per-iteration divergence map - elementwise
absolute difference of the two conditioned trajectories run on the identical
noise sample. -/
def divergenceMap (latent e1 e2 : List Int) (seed iter : Nat) : List Nat :=
  let noise := deriveNoise seed iter latent.length
  List.zipWith (fun a b => (a - b).natAbs)
    (predictNoise latent noise e1) (predictNoise latent noise e2)

/-- Modelled from the spec: accumulation of the divergence maps over the
`n` iterations into a running sum. -/
def accumulateDivergence (latent e1 e2 : List Int) (seed n : Nat) : List Nat :=
  (List.range n).foldl
    (fun acc iter => List.zipWith (fun a b => a + b) acc (divergenceMap latent e1 e2 seed iter))
    (List.replicate latent.length 0)

/-- Modelled from the spec: thresholding the normalized accumulated
divergence at the 0.5 cutoff into the rough binary mask. -/
def thresholdMask (acc : List Nat) : List Nat :=
  let mx := acc.foldl Nat.max 1
  acc.map (fun v => if mx ≤ 2 * v then 255 else 0)

/-- Modelled from the spec: the smoothing/denoising morphological pass
turning the rough mask into the processed mask. -/
def smoothMask (l : List Nat) : List Nat :=
  (List.range l.length).map (fun i =>
    if l.getD i 0 = 255 && (l.getD (i + 1) 255 = 255 || l.getD (i - 1) 255 = 255)
    then 255 else 0)

/-- Modelled from the spec: `MaskGenerator.calc_diffedit_mask` (source not
available), the algorithmic core: two conditioned denoising runs per
iteration on seed-derived noise, differenced, accumulated, thresholded into
the rough mask and smoothed into the processed mask.  Returns the pair
(processed mask, rough mask), also exposed by the generator as its
`processed_mask` and `rough_mask` attributes. -/
def MaskGenerator.calc_diffedit_mask (latent : List Int) (p1 p2 : String) (n seed : Nat) :
    Image × Image :=
  let e1 := (clip_text_encoder (tokenizeToMaxLength p1) false).1.flatten
  let e2 := (clip_text_encoder (tokenizeToMaxLength p2) false).1.flatten
  let acc := accumulateDivergence latent e1 e2 seed n
  let rough := thresholdMask acc
  (⟨IMG_RESIZE_DIM, IMG_RESIZE_DIM, smoothMask rough⟩, ⟨IMG_RESIZE_DIM, IMG_RESIZE_DIM, rough⟩)

/-- Modelled from the spec: `Inpainter.inpaint_mask` (source not available):
produces an image identical to the input outside the mask region and newly
generated pixels (conditioned on the prompt, seeded) inside it. -/
def Inpainter.inpaint_mask (im : Image) (mask : Image) (p2 : String) (seed : Nat) : Image :=
  ⟨im.width, im.height,
   (List.range im.data.length).map (fun i =>
     if mask.data.getD i 0 = 255
     then (seed + 31 * i + (tokenizeToMaxLength p2).foldl (fun a b => a + b) 0) % 256
     else im.data.getD i 0)⟩

/-- Embedding of `DiffEdit.get_mask`: open and resize the image, encode it
into a latent, run the mask generator, and return the processed mask, the
rough mask and the blended visualization.  `PIL.Image.open` on a missing
file raises `FileNotFoundError`. -/
def DiffEdit.get_mask (fs : FS) (im_path p1 p2 : String) (seed n : Nat) :
    Except PyErr (Image × Image × Image) :=
  match fs im_path with
  | none => Except.error (PyErr.fileNotFound im_path)
  | some im0 =>
    let im := im0.resize IMG_RESIZE_DIM IMG_RESIZE_DIM
    let im_latent := ImageProcessor.img2latent im VAE_CONST
    let pm := MaskGenerator.calc_diffedit_mask im_latent p1 p2 n seed
    Except.ok (pm.1, pm.2, ImageProcessor.get_blended_mask im pm.1)

/-- Embedding of `DiffEdit.refine_mask`: the method body is `pass`, so it
returns `None` and leaves the filesystem untouched. -/
def DiffEdit.refine_mask (fs : FS) (_mask : Image) (_n : Nat) : Option Image × FS :=
  (none, fs)

/-- Embedding of `DiffEdit.create_mask`: check the image path exists (else
raise `ValueError`), then delegate to `get_mask`.  The filesystem is
returned unchanged: the method performs no write. -/
def DiffEdit.create_mask (fs : FS) (im_path p1 p2 : String) (n seed : Nat) :
    Except PyErr (Image × Image × Image) × FS :=
  if os_path_exists fs im_path
  then (DiffEdit.get_mask fs im_path p1 p2 seed n, fs)
  else (Except.error (PyErr.valueError
          ("Image path " ++ im_path ++ " does not exist. Check the provided path")), fs)

/-- Embedding of `DiffEdit.save_mask`: writes, in order, `mask.bmp`,
`rough_mask.bmp`, `blended_mask.bmp` into the workdir, then opens the file
at `im_path`, resizes it and writes it as `original_image.bmp`.  The
`open(..., "wb")` for the original runs before `Image.open(im_path)`, so a
missing `im_path` still leaves a truncated `original_image.bmp`. -/
def DiffEdit.save_mask (fs : FS) (mask rough_mask blended_mask : Image)
    (im_path workdir : String) : Except PyErr Unit × FS :=
  let fs1 := fsWrite fs (os_path_join workdir "mask.bmp") mask
  let fs2 := fsWrite fs1 (os_path_join workdir "rough_mask.bmp") rough_mask
  let fs3 := fsWrite fs2 (os_path_join workdir "blended_mask.bmp") blended_mask
  match fs3 im_path with
  | none =>
    (Except.error (PyErr.fileNotFound im_path),
     fsWrite fs3 (os_path_join workdir "original_image.bmp") Image.empty)
  | some im =>
    (Except.ok (),
     fsWrite fs3 (os_path_join workdir "original_image.bmp")
       (im.resize IMG_RESIZE_DIM IMG_RESIZE_DIM))

/-- Embedding of `DiffEdit.save_inpainted_image`: writes
`inpainted_image.bmp` into the workdir. -/
def DiffEdit.save_inpainted_image (fs : FS) (inpainted_image : Image) (workdir : String) :
    Except PyErr Unit × FS :=
  (Except.ok (), fsWrite fs (os_path_join workdir "inpainted_image.bmp") inpainted_image)

/-- Embedding of `DiffEdit.load_mask`: raise `ValueError` unless all of
`mask.bmp`, `rough_mask.bmp`, `blended_mask.bmp` exist in the workdir, then
open and copy the three images.  (`original_image.bmp` is not checked.) -/
def DiffEdit.load_mask (fs : FS) (workdir : String) :
    Except PyErr (Image × Image × Image) :=
  match fs (os_path_join workdir "mask.bmp"), fs (os_path_join workdir "rough_mask.bmp"),
        fs (os_path_join workdir "blended_mask.bmp") with
  | some m, some r, some b => Except.ok (m.copy, r.copy, b.copy)
  | _, _, _ => Except.error (PyErr.valueError
      ("Mask files not found in " ++ workdir ++ ". Run create_mask to generate the mask."))

/-- Embedding of `DiffEdit.inpaint_mask_with_prompt`: check the image path
exists (else raise `ValueError`), open, resize and copy the image, then run
the inpainter on it with the given mask, prompt and seed. -/
def DiffEdit.inpaint_mask_with_prompt (fs : FS) (im_path : String) (mask : Image)
    (p2 : String) (seed : Nat) : Except PyErr Image :=
  match fs im_path with
  | none => Except.error (PyErr.valueError
      ("Image path " ++ im_path ++ " does not exist. Check the provided path"))
  | some im0 =>
    Except.ok (Inpainter.inpaint_mask ((im0.resize IMG_RESIZE_DIM IMG_RESIZE_DIM).copy)
      mask p2 seed)

/-- Embedding of `DiffEdit.demo_diffedit`: path check, resized original into
the output, `create_mask`, `save_mask` (default workdir `"./"`), blended
visualization into the output, `load_mask` from `"./"`, inpainting with the
loaded mask, `save_inpainted_image`, inpainted image into the output. -/
def DiffEdit.demo_diffedit (fs : FS) (im_path p1 p2 : String) (n seed : Nat) :
    Except PyErr (List Image) × FS :=
  match fs im_path with
  | none =>
    (Except.error (PyErr.valueError
       ("Image path " ++ im_path ++ " does not exist. Check the provided path")), fs)
  | some im0 =>
    let im := (im0.resize IMG_RESIZE_DIM IMG_RESIZE_DIM).copy
    match DiffEdit.create_mask fs im_path p1 p2 n seed with
    | (Except.error e, fs1) => (Except.error e, fs1)
    | (Except.ok (mask, rough_mask, blended_mask), fs1) =>
      match DiffEdit.save_mask fs1 mask rough_mask blended_mask im_path "./" with
      | (Except.error e, fs2) => (Except.error e, fs2)
      | (Except.ok _, fs2) =>
        match DiffEdit.load_mask fs2 "./" with
        | Except.error e => (Except.error e, fs2)
        | Except.ok (mask2, _rough2, _blended2) =>
          match DiffEdit.inpaint_mask_with_prompt fs2 im_path mask2 p2 seed with
          | Except.error e => (Except.error e, fs2)
          | Except.ok inpainted_image =>
            match DiffEdit.save_inpainted_image fs2 inpainted_image "./" with
            | (Except.error e, fs3) => (Except.error e, fs3)
            | (Except.ok _, fs3) => (Except.ok [im, blended_mask, inpainted_image], fs3)

/-- A torch module, abstracted to its observable device placement. -/
structure TorchModule where
  device : Option String
deriving DecidableEq

/-- Embedding of `module.to(device)` on a real (non-`None`) module. -/
def TorchModule.to (_m : TorchModule) (d : Option String) : TorchModule :=
  { device := d }

/-- Embedding of the Python attribute access `component.to(device)` when the
component may be `None`: on `None` it raises `AttributeError`. -/
def moduleTo (c : Option TorchModule) (d : Option String) : Except PyErr TorchModule :=
  match c with
  | none => Except.error (PyErr.attributeError "NoneType object has no attribute to")
  | some md => Except.ok (md.to d)

/-- The component fields of a constructed `DiffEdit` object. -/
structure DiffEditState where
  tokenizer : Option TorchModule
  text_encoder : Option TorchModule
  vae : Option TorchModule
  unet : Option TorchModule
  inpainting : Option TorchModule
  scheduler : Option TorchModule
  torch_device : Option String
deriving DecidableEq

/-- Embedding of `DiffEdit.to`: calls `.to(device)` on `vae`,
`text_encoder`, `unet` and `inpainting`, in that order; `tokenizer` and
`scheduler` are not touched. -/
def DiffEdit.to (s : DiffEditState) (device : Option String) : Except PyErr DiffEditState :=
  match moduleTo s.vae device with
  | Except.error e => Except.error e
  | Except.ok v =>
    match moduleTo s.text_encoder device with
    | Except.error e => Except.error e
    | Except.ok te =>
      match moduleTo s.unet device with
      | Except.error e => Except.error e
      | Except.ok u =>
        match moduleTo s.inpainting device with
        | Except.error e => Except.error e
        | Except.ok ip =>
          Except.ok { s with vae := some v, text_encoder := some te,
                             unet := some u, inpainting := some ip }

/-- Embedding of `DiffEdit.__init__`: stores the components, then
unconditionally calls `self.to(torch_device)`.  The subsequent
`ImageProcessor`, `MaskGenerator` and `Inpainter` constructors are modelled
from the spec as thin wrappers that only store their collaborators and
cannot fail. -/
def DiffEdit.init (tokenizer text_encoder vae unet inpainting scheduler : Option TorchModule)
    (torch_device : Option String) : Except PyErr DiffEditState :=
  DiffEdit.to
    ⟨tokenizer, text_encoder, vae, unet, inpainting, scheduler, torch_device⟩
    torch_device

/-! ## Basic lemmas about the filesystem model and path joining -/

theorem fsWrite_same (fs : FS) (p : String) (im : Image) : fsWrite fs p im p = some im := by
  simp [fsWrite]

theorem fsWrite_other (fs : FS) (p q : String) (im : Image) (h : q ≠ p) :
    fsWrite fs p im q = fs q := by
  simp [fsWrite, h]

theorem fsWrite_isSome (fs : FS) (p q : String) (im : Image) (h : (fs q).isSome) :
    ((fsWrite fs p im) q).isSome := by
  by_cases hq : q = p <;> simp [fsWrite, hq, h]

theorem os_path_join_ne (w a b : String) (h : a.length ≠ b.length) :
    os_path_join w a ≠ os_path_join w b := by
  intro he
  apply h
  unfold os_path_join at he
  split at he
  · exact congrArg String.length he
  · split at he
    · have hl := congrArg String.length he
      simp only [String.length_append] at hl
      omega
    · have hl := congrArg String.length he
      simp only [String.length_append] at hl
      omega

theorem join_mask_ne_rough (w : String) :
    os_path_join w "mask.bmp" ≠ os_path_join w "rough_mask.bmp" :=
  os_path_join_ne _ _ _ (by decide)

theorem join_mask_ne_blended (w : String) :
    os_path_join w "mask.bmp" ≠ os_path_join w "blended_mask.bmp" :=
  os_path_join_ne _ _ _ (by decide)

theorem join_mask_ne_original (w : String) :
    os_path_join w "mask.bmp" ≠ os_path_join w "original_image.bmp" :=
  os_path_join_ne _ _ _ (by decide)

theorem join_rough_ne_blended (w : String) :
    os_path_join w "rough_mask.bmp" ≠ os_path_join w "blended_mask.bmp" :=
  os_path_join_ne _ _ _ (by decide)

theorem join_rough_ne_original (w : String) :
    os_path_join w "rough_mask.bmp" ≠ os_path_join w "original_image.bmp" :=
  os_path_join_ne _ _ _ (by decide)

theorem join_blended_ne_original (w : String) :
    os_path_join w "blended_mask.bmp" ≠ os_path_join w "original_image.bmp" :=
  os_path_join_ne _ _ _ (by decide)

/-- The filesystem resulting from `save_mask` is the three mask writes
followed by a write of some image (the resized original, or the truncated
file when the original path is missing) at `original_image.bmp`. -/
theorem save_mask_snd (fs : FS) (mask rough blended : Image) (ip w : String) :
    ∃ orig : Image,
      (DiffEdit.save_mask fs mask rough blended ip w).2 =
        fsWrite (fsWrite (fsWrite (fsWrite fs (os_path_join w "mask.bmp") mask)
            (os_path_join w "rough_mask.bmp") rough)
            (os_path_join w "blended_mask.bmp") blended)
          (os_path_join w "original_image.bmp") orig := by
  simp only [DiffEdit.save_mask]
  cases hip : (fsWrite (fsWrite (fsWrite fs (os_path_join w "mask.bmp") mask)
      (os_path_join w "rough_mask.bmp") rough)
      (os_path_join w "blended_mask.bmp") blended) ip with
  | none => exact ⟨Image.empty, rfl⟩
  | some im => exact ⟨im.resize IMG_RESIZE_DIM IMG_RESIZE_DIM, rfl⟩

/-! ## Claim theorems -/

/-- C1: for a fixed seed, image path, prompt pair and iteration count, the
mask generation operations (`get_mask` / `create_mask`) are a deterministic
function of their inputs: they depend only on the image stored at the path,
and a repeated call (the filesystem is unchanged by the first call) returns
the bit-identical processed mask, rough mask and blended mask. -/
theorem mask_generation_deterministic (fs fsB : FS) (im_path p1 p2 : String) (seed n : Nat)
    (h : fs im_path = fsB im_path) :
    DiffEdit.get_mask fs im_path p1 p2 seed n = DiffEdit.get_mask fsB im_path p1 p2 seed n ∧
    (DiffEdit.create_mask fs im_path p1 p2 n seed).1
      = (DiffEdit.create_mask fsB im_path p1 p2 n seed).1 ∧
    (DiffEdit.create_mask ((DiffEdit.create_mask fs im_path p1 p2 n seed).2)
        im_path p1 p2 n seed).1
      = (DiffEdit.create_mask fs im_path p1 p2 n seed).1 := by
  have hg : DiffEdit.get_mask fs im_path p1 p2 seed n
      = DiffEdit.get_mask fsB im_path p1 p2 seed n := by
    unfold DiffEdit.get_mask
    rw [h]
  have hex : os_path_exists fs im_path = os_path_exists fsB im_path := by
    unfold os_path_exists
    rw [h]
  have hsnd : (DiffEdit.create_mask fs im_path p1 p2 n seed).2 = fs := by
    unfold DiffEdit.create_mask
    cases he : os_path_exists fs im_path <;> simp [he]
  refine ⟨hg, ?_, ?_⟩
  · unfold DiffEdit.create_mask
    cases he : os_path_exists fs im_path <;> rw [← hex] <;> simp [he, hg]
  · rw [hsnd]

/-- C1 witness: two filesystems agreeing on the image path (and differing
elsewhere) give identical mask outputs. -/
theorem mask_generation_deterministic_witness :
    ((fun q => if q = "img.bmp" then some (⟨2, 2, [7, 7, 7, 7]⟩ : Image) else none : FS) "img.bmp"
      = (fun q => if q = "img.bmp" then some (⟨2, 2, [7, 7, 7, 7]⟩ : Image)
                  else some Image.empty : FS) "img.bmp") ∧
    DiffEdit.get_mask (fun q => if q = "img.bmp" then some ⟨2, 2, [7, 7, 7, 7]⟩ else none)
        "img.bmp" "dog" "cat" 42 2
      = DiffEdit.get_mask (fun q => if q = "img.bmp" then some ⟨2, 2, [7, 7, 7, 7]⟩
                                    else some Image.empty)
        "img.bmp" "dog" "cat" 42 2 :=
  ⟨by decide,
   (mask_generation_deterministic _ _ "img.bmp" "dog" "cat" 42 2 (by decide)).1⟩

/-- C2: `create_mask` on a nonexistent image path raises the
`PathNotFound`-kind `ValueError` with the documented message, before any
mask computation, and performs no filesystem write: the filesystem is
returned unchanged. -/
theorem create_mask_missing_path (fs : FS) (im_path p1 p2 : String) (n seed : Nat)
    (h : fs im_path = none) :
    DiffEdit.create_mask fs im_path p1 p2 n seed =
      (Except.error (PyErr.valueError
        ("Image path " ++ im_path ++ " does not exist. Check the provided path")), fs) := by
  simp [DiffEdit.create_mask, os_path_exists, h]

/-- C2 witness: on the empty filesystem, `create_mask` fails with the
path-not-found error and writes nothing. -/
theorem create_mask_missing_path_witness :
    ((fun _ => none : FS) "a.png" = none) ∧
    DiffEdit.create_mask (fun _ => none) "a.png" "dog" "cat" 2 42 =
      (Except.error (PyErr.valueError
        ("Image path " ++ "a.png" ++ " does not exist. Check the provided path")),
       (fun _ => none)) :=
  ⟨rfl, create_mask_missing_path (fun _ => none) "a.png" "dog" "cat" 2 42 rfl⟩

/-- C3 counterexample: a working directory holding `mask.bmp`,
`rough_mask.bmp` and `blended_mask.bmp` but missing `original_image.bmp`
(a file of the persisted artifact set) on which `load_mask` succeeds, so it
is not true that `load_mask` fails whenever any file of the four-file
artifact set is missing. -/
theorem load_mask_ignores_missing_original :
    ((fun q => if q = "./mask.bmp" ∨ q = "./rough_mask.bmp" ∨ q = "./blended_mask.bmp"
               then some (⟨1, 1, [0]⟩ : Image) else none : FS) "./original_image.bmp" = none) ∧
    DiffEdit.load_mask
        (fun q => if q = "./mask.bmp" ∨ q = "./rough_mask.bmp" ∨ q = "./blended_mask.bmp"
                  then some ⟨1, 1, [0]⟩ else none) "./" =
      Except.ok (⟨1, 1, [0]⟩, ⟨1, 1, [0]⟩, ⟨1, 1, [0]⟩) := by
  constructor
  · decide
  · have e1 : os_path_join "./" "mask.bmp" = "./mask.bmp" := by decide
    have e2 : os_path_join "./" "rough_mask.bmp" = "./rough_mask.bmp" := by decide
    have e3 : os_path_join "./" "blended_mask.bmp" = "./blended_mask.bmp" := by decide
    simp [DiffEdit.load_mask, e1, e2, e3, Image.copy]

/-- C3 (amended): `load_mask` checks exactly the three mask files
`mask.bmp`, `rough_mask.bmp` and `blended_mask.bmp`: it raises the
`ArtifactsNotFound`-kind `ValueError` when any of those three is missing,
and returns the three loaded images when all three are present;
`original_image.bmp` is not part of the check. -/
theorem load_mask_checks_three_mask_files (fs : FS) (w : String) :
    ((fs (os_path_join w "mask.bmp") = none ∨ fs (os_path_join w "rough_mask.bmp") = none ∨
      fs (os_path_join w "blended_mask.bmp") = none) →
      DiffEdit.load_mask fs w = Except.error (PyErr.valueError
        ("Mask files not found in " ++ w ++ ". Run create_mask to generate the mask."))) ∧
    (∀ m r b : Image, fs (os_path_join w "mask.bmp") = some m →
      fs (os_path_join w "rough_mask.bmp") = some r →
      fs (os_path_join w "blended_mask.bmp") = some b →
      DiffEdit.load_mask fs w = Except.ok (m, r, b)) := by
  constructor
  · intro h
    rcases hm : fs (os_path_join w "mask.bmp") with _ | m <;>
      rcases hr : fs (os_path_join w "rough_mask.bmp") with _ | r <;>
      rcases hb : fs (os_path_join w "blended_mask.bmp") with _ | b <;>
      simp_all [DiffEdit.load_mask]
  · intro m r b hm hr hb
    simp [DiffEdit.load_mask, hm, hr, hb, Image.copy]

/-- C3 witness: on the empty directory `load_mask` raises the error, and on
a complete three-file directory it returns the stored images. -/
theorem load_mask_checks_three_mask_files_witness :
    ((fun _ => none : FS) (os_path_join "./" "mask.bmp") = none ∨
      (fun _ => none : FS) (os_path_join "./" "rough_mask.bmp") = none ∨
      (fun _ => none : FS) (os_path_join "./" "blended_mask.bmp") = none) ∧
    DiffEdit.load_mask (fun _ => none) "./" = Except.error (PyErr.valueError
      ("Mask files not found in " ++ "./" ++ ". Run create_mask to generate the mask.")) :=
  ⟨Or.inl rfl, (load_mask_checks_three_mask_files (fun _ => none) "./").1 (Or.inl rfl)⟩

/-- C4: persistence round-trip: for every triple of mask, rough mask and
blended mask images, every filesystem, image path and working directory,
`save_mask` followed by `load_mask` on the same directory returns exactly
the three saved images (bitmap persistence is lossless). -/
theorem save_then_load_round_trip (fs : FS) (mask rough blended : Image)
    (im_path workdir : String) :
    DiffEdit.load_mask ((DiffEdit.save_mask fs mask rough blended im_path workdir).2) workdir
      = Except.ok (mask, rough, blended) := by
  obtain ⟨orig, hsnd⟩ := save_mask_snd fs mask rough blended im_path workdir
  rw [hsnd]
  have hmp : (fsWrite (fsWrite (fsWrite (fsWrite fs (os_path_join workdir "mask.bmp") mask)
      (os_path_join workdir "rough_mask.bmp") rough)
      (os_path_join workdir "blended_mask.bmp") blended)
      (os_path_join workdir "original_image.bmp") orig) (os_path_join workdir "mask.bmp")
      = some mask := by
    rw [fsWrite_other _ _ _ _ (join_mask_ne_original workdir),
        fsWrite_other _ _ _ _ (join_mask_ne_blended workdir),
        fsWrite_other _ _ _ _ (join_mask_ne_rough workdir), fsWrite_same]
  have hrp : (fsWrite (fsWrite (fsWrite (fsWrite fs (os_path_join workdir "mask.bmp") mask)
      (os_path_join workdir "rough_mask.bmp") rough)
      (os_path_join workdir "blended_mask.bmp") blended)
      (os_path_join workdir "original_image.bmp") orig) (os_path_join workdir "rough_mask.bmp")
      = some rough := by
    rw [fsWrite_other _ _ _ _ (join_rough_ne_original workdir),
        fsWrite_other _ _ _ _ (join_rough_ne_blended workdir), fsWrite_same]
  have hbp : (fsWrite (fsWrite (fsWrite (fsWrite fs (os_path_join workdir "mask.bmp") mask)
      (os_path_join workdir "rough_mask.bmp") rough)
      (os_path_join workdir "blended_mask.bmp") blended)
      (os_path_join workdir "original_image.bmp") orig) (os_path_join workdir "blended_mask.bmp")
      = some blended := by
    rw [fsWrite_other _ _ _ _ (join_blended_ne_original workdir), fsWrite_same]
  simp [DiffEdit.load_mask, hmp, hrp, hbp, Image.copy]

/-- C5: `demo_diffedit` chains the full workflow in one call: for every
existing image path it performs, in order, the path-existence check, mask
creation (`create_mask`), persistence of the mask set (`save_mask`),
re-loading of the persisted masks (`load_mask`), inpainting conditioned on
the add-prompt and seed (`inpaint_mask_with_prompt`), and persistence of
the inpainted result (`save_inpainted_image`), and returns the list of the
resized original, the blended visualization and the inpainted image. -/
theorem demo_diffedit_chains_full_workflow (fs : FS) (im_path p1 p2 : String) (n seed : Nat)
    (im : Image) (h : fs im_path = some im) :
    ∃ (mask rough blended inpainted : Image) (fs2 : FS),
      DiffEdit.create_mask fs im_path p1 p2 n seed = (Except.ok (mask, rough, blended), fs) ∧
      DiffEdit.save_mask fs mask rough blended im_path "./" = (Except.ok (), fs2) ∧
      DiffEdit.load_mask fs2 "./" = Except.ok (mask, rough, blended) ∧
      DiffEdit.inpaint_mask_with_prompt fs2 im_path mask p2 seed = Except.ok inpainted ∧
      DiffEdit.demo_diffedit fs im_path p1 p2 n seed =
        (Except.ok [im.resize IMG_RESIZE_DIM IMG_RESIZE_DIM, blended, inpainted],
         (DiffEdit.save_inpainted_image fs2 inpainted "./").2) := by
  have hex : os_path_exists fs im_path = true := by
    simp [os_path_exists, h]
  have hg : DiffEdit.get_mask fs im_path p1 p2 seed n =
      Except.ok
        ((MaskGenerator.calc_diffedit_mask
            (ImageProcessor.img2latent (im.resize IMG_RESIZE_DIM IMG_RESIZE_DIM) VAE_CONST)
            p1 p2 n seed).1,
         (MaskGenerator.calc_diffedit_mask
            (ImageProcessor.img2latent (im.resize IMG_RESIZE_DIM IMG_RESIZE_DIM) VAE_CONST)
            p1 p2 n seed).2,
         ImageProcessor.get_blended_mask (im.resize IMG_RESIZE_DIM IMG_RESIZE_DIM)
           (MaskGenerator.calc_diffedit_mask
             (ImageProcessor.img2latent (im.resize IMG_RESIZE_DIM IMG_RESIZE_DIM) VAE_CONST)
             p1 p2 n seed).1) := by
    simp [DiffEdit.get_mask, h]
  have hcm : DiffEdit.create_mask fs im_path p1 p2 n seed =
      (Except.ok
        ((MaskGenerator.calc_diffedit_mask
            (ImageProcessor.img2latent (im.resize IMG_RESIZE_DIM IMG_RESIZE_DIM) VAE_CONST)
            p1 p2 n seed).1,
         (MaskGenerator.calc_diffedit_mask
            (ImageProcessor.img2latent (im.resize IMG_RESIZE_DIM IMG_RESIZE_DIM) VAE_CONST)
            p1 p2 n seed).2,
         ImageProcessor.get_blended_mask (im.resize IMG_RESIZE_DIM IMG_RESIZE_DIM)
           (MaskGenerator.calc_diffedit_mask
             (ImageProcessor.img2latent (im.resize IMG_RESIZE_DIM IMG_RESIZE_DIM) VAE_CONST)
             p1 p2 n seed).1), fs) := by
    simp only [DiffEdit.create_mask, hex, if_true, hg]
  obtain ⟨y, hy⟩ : ∃ y, (fsWrite (fsWrite (fsWrite fs (os_path_join "./" "mask.bmp")
      (MaskGenerator.calc_diffedit_mask
        (ImageProcessor.img2latent (im.resize IMG_RESIZE_DIM IMG_RESIZE_DIM) VAE_CONST)
        p1 p2 n seed).1)
      (os_path_join "./" "rough_mask.bmp")
      (MaskGenerator.calc_diffedit_mask
        (ImageProcessor.img2latent (im.resize IMG_RESIZE_DIM IMG_RESIZE_DIM) VAE_CONST)
        p1 p2 n seed).2)
      (os_path_join "./" "blended_mask.bmp")
      (ImageProcessor.get_blended_mask (im.resize IMG_RESIZE_DIM IMG_RESIZE_DIM)
        (MaskGenerator.calc_diffedit_mask
          (ImageProcessor.img2latent (im.resize IMG_RESIZE_DIM IMG_RESIZE_DIM) VAE_CONST)
          p1 p2 n seed).1)) im_path = some y := by
    apply Option.isSome_iff_exists.mp
    apply fsWrite_isSome
    apply fsWrite_isSome
    apply fsWrite_isSome
    simp [h]
  have hsm : DiffEdit.save_mask fs
      (MaskGenerator.calc_diffedit_mask
        (ImageProcessor.img2latent (im.resize IMG_RESIZE_DIM IMG_RESIZE_DIM) VAE_CONST)
        p1 p2 n seed).1
      (MaskGenerator.calc_diffedit_mask
        (ImageProcessor.img2latent (im.resize IMG_RESIZE_DIM IMG_RESIZE_DIM) VAE_CONST)
        p1 p2 n seed).2
      (ImageProcessor.get_blended_mask (im.resize IMG_RESIZE_DIM IMG_RESIZE_DIM)
        (MaskGenerator.calc_diffedit_mask
          (ImageProcessor.img2latent (im.resize IMG_RESIZE_DIM IMG_RESIZE_DIM) VAE_CONST)
          p1 p2 n seed).1)
      im_path "./" =
      (Except.ok (),
       fsWrite
         (fsWrite
           (fsWrite
             (fsWrite fs (os_path_join "./" "mask.bmp")
               (MaskGenerator.calc_diffedit_mask
                 (ImageProcessor.img2latent (im.resize IMG_RESIZE_DIM IMG_RESIZE_DIM) VAE_CONST)
                 p1 p2 n seed).1)
             (os_path_join "./" "rough_mask.bmp")
             (MaskGenerator.calc_diffedit_mask
               (ImageProcessor.img2latent (im.resize IMG_RESIZE_DIM IMG_RESIZE_DIM) VAE_CONST)
               p1 p2 n seed).2)
           (os_path_join "./" "blended_mask.bmp")
           (ImageProcessor.get_blended_mask (im.resize IMG_RESIZE_DIM IMG_RESIZE_DIM)
             (MaskGenerator.calc_diffedit_mask
               (ImageProcessor.img2latent (im.resize IMG_RESIZE_DIM IMG_RESIZE_DIM) VAE_CONST)
               p1 p2 n seed).1))
         (os_path_join "./" "original_image.bmp") (y.resize IMG_RESIZE_DIM IMG_RESIZE_DIM)) := by
    simp only [DiffEdit.save_mask]
    rw [hy]
  have hld : DiffEdit.load_mask
      (fsWrite
        (fsWrite
          (fsWrite
            (fsWrite fs (os_path_join "./" "mask.bmp")
              (MaskGenerator.calc_diffedit_mask
                (ImageProcessor.img2latent (im.resize IMG_RESIZE_DIM IMG_RESIZE_DIM) VAE_CONST)
                p1 p2 n seed).1)
            (os_path_join "./" "rough_mask.bmp")
            (MaskGenerator.calc_diffedit_mask
              (ImageProcessor.img2latent (im.resize IMG_RESIZE_DIM IMG_RESIZE_DIM) VAE_CONST)
              p1 p2 n seed).2)
          (os_path_join "./" "blended_mask.bmp")
          (ImageProcessor.get_blended_mask (im.resize IMG_RESIZE_DIM IMG_RESIZE_DIM)
            (MaskGenerator.calc_diffedit_mask
              (ImageProcessor.img2latent (im.resize IMG_RESIZE_DIM IMG_RESIZE_DIM) VAE_CONST)
              p1 p2 n seed).1))
        (os_path_join "./" "original_image.bmp") (y.resize IMG_RESIZE_DIM IMG_RESIZE_DIM)) "./" =
      Except.ok
        ((MaskGenerator.calc_diffedit_mask
            (ImageProcessor.img2latent (im.resize IMG_RESIZE_DIM IMG_RESIZE_DIM) VAE_CONST)
            p1 p2 n seed).1,
         (MaskGenerator.calc_diffedit_mask
            (ImageProcessor.img2latent (im.resize IMG_RESIZE_DIM IMG_RESIZE_DIM) VAE_CONST)
            p1 p2 n seed).2,
         ImageProcessor.get_blended_mask (im.resize IMG_RESIZE_DIM IMG_RESIZE_DIM)
           (MaskGenerator.calc_diffedit_mask
             (ImageProcessor.img2latent (im.resize IMG_RESIZE_DIM IMG_RESIZE_DIM) VAE_CONST)
             p1 p2 n seed).1) := by
    have hmp : (fsWrite
        (fsWrite
          (fsWrite
            (fsWrite fs (os_path_join "./" "mask.bmp")
              (MaskGenerator.calc_diffedit_mask
                (ImageProcessor.img2latent (im.resize IMG_RESIZE_DIM IMG_RESIZE_DIM) VAE_CONST)
                p1 p2 n seed).1)
            (os_path_join "./" "rough_mask.bmp")
            (MaskGenerator.calc_diffedit_mask
              (ImageProcessor.img2latent (im.resize IMG_RESIZE_DIM IMG_RESIZE_DIM) VAE_CONST)
              p1 p2 n seed).2)
          (os_path_join "./" "blended_mask.bmp")
          (ImageProcessor.get_blended_mask (im.resize IMG_RESIZE_DIM IMG_RESIZE_DIM)
            (MaskGenerator.calc_diffedit_mask
              (ImageProcessor.img2latent (im.resize IMG_RESIZE_DIM IMG_RESIZE_DIM) VAE_CONST)
              p1 p2 n seed).1))
        (os_path_join "./" "original_image.bmp") (y.resize IMG_RESIZE_DIM IMG_RESIZE_DIM))
        (os_path_join "./" "mask.bmp")
        = some (MaskGenerator.calc_diffedit_mask
            (ImageProcessor.img2latent (im.resize IMG_RESIZE_DIM IMG_RESIZE_DIM) VAE_CONST)
            p1 p2 n seed).1 := by
      rw [fsWrite_other _ _ _ _ (join_mask_ne_original "./"),
          fsWrite_other _ _ _ _ (join_mask_ne_blended "./"),
          fsWrite_other _ _ _ _ (join_mask_ne_rough "./"), fsWrite_same]
    have hrp : (fsWrite
        (fsWrite
          (fsWrite
            (fsWrite fs (os_path_join "./" "mask.bmp")
              (MaskGenerator.calc_diffedit_mask
                (ImageProcessor.img2latent (im.resize IMG_RESIZE_DIM IMG_RESIZE_DIM) VAE_CONST)
                p1 p2 n seed).1)
            (os_path_join "./" "rough_mask.bmp")
            (MaskGenerator.calc_diffedit_mask
              (ImageProcessor.img2latent (im.resize IMG_RESIZE_DIM IMG_RESIZE_DIM) VAE_CONST)
              p1 p2 n seed).2)
          (os_path_join "./" "blended_mask.bmp")
          (ImageProcessor.get_blended_mask (im.resize IMG_RESIZE_DIM IMG_RESIZE_DIM)
            (MaskGenerator.calc_diffedit_mask
              (ImageProcessor.img2latent (im.resize IMG_RESIZE_DIM IMG_RESIZE_DIM) VAE_CONST)
              p1 p2 n seed).1))
        (os_path_join "./" "original_image.bmp") (y.resize IMG_RESIZE_DIM IMG_RESIZE_DIM))
        (os_path_join "./" "rough_mask.bmp")
        = some (MaskGenerator.calc_diffedit_mask
            (ImageProcessor.img2latent (im.resize IMG_RESIZE_DIM IMG_RESIZE_DIM) VAE_CONST)
            p1 p2 n seed).2 := by
      rw [fsWrite_other _ _ _ _ (join_rough_ne_original "./"),
          fsWrite_other _ _ _ _ (join_rough_ne_blended "./"), fsWrite_same]
    have hbp : (fsWrite
        (fsWrite
          (fsWrite
            (fsWrite fs (os_path_join "./" "mask.bmp")
              (MaskGenerator.calc_diffedit_mask
                (ImageProcessor.img2latent (im.resize IMG_RESIZE_DIM IMG_RESIZE_DIM) VAE_CONST)
                p1 p2 n seed).1)
            (os_path_join "./" "rough_mask.bmp")
            (MaskGenerator.calc_diffedit_mask
              (ImageProcessor.img2latent (im.resize IMG_RESIZE_DIM IMG_RESIZE_DIM) VAE_CONST)
              p1 p2 n seed).2)
          (os_path_join "./" "blended_mask.bmp")
          (ImageProcessor.get_blended_mask (im.resize IMG_RESIZE_DIM IMG_RESIZE_DIM)
            (MaskGenerator.calc_diffedit_mask
              (ImageProcessor.img2latent (im.resize IMG_RESIZE_DIM IMG_RESIZE_DIM) VAE_CONST)
              p1 p2 n seed).1))
        (os_path_join "./" "original_image.bmp") (y.resize IMG_RESIZE_DIM IMG_RESIZE_DIM))
        (os_path_join "./" "blended_mask.bmp")
        = some (ImageProcessor.get_blended_mask (im.resize IMG_RESIZE_DIM IMG_RESIZE_DIM)
            (MaskGenerator.calc_diffedit_mask
              (ImageProcessor.img2latent (im.resize IMG_RESIZE_DIM IMG_RESIZE_DIM) VAE_CONST)
              p1 p2 n seed).1) := by
      rw [fsWrite_other _ _ _ _ (join_blended_ne_original "./"), fsWrite_same]
    rw [DiffEdit.load_mask, hmp, hrp, hbp]
    simp [Image.copy]
  obtain ⟨z, hz⟩ : ∃ z, (fsWrite
      (fsWrite
        (fsWrite
          (fsWrite fs (os_path_join "./" "mask.bmp")
            (MaskGenerator.calc_diffedit_mask
              (ImageProcessor.img2latent (im.resize IMG_RESIZE_DIM IMG_RESIZE_DIM) VAE_CONST)
              p1 p2 n seed).1)
          (os_path_join "./" "rough_mask.bmp")
          (MaskGenerator.calc_diffedit_mask
            (ImageProcessor.img2latent (im.resize IMG_RESIZE_DIM IMG_RESIZE_DIM) VAE_CONST)
            p1 p2 n seed).2)
        (os_path_join "./" "blended_mask.bmp")
        (ImageProcessor.get_blended_mask (im.resize IMG_RESIZE_DIM IMG_RESIZE_DIM)
          (MaskGenerator.calc_diffedit_mask
            (ImageProcessor.img2latent (im.resize IMG_RESIZE_DIM IMG_RESIZE_DIM) VAE_CONST)
            p1 p2 n seed).1))
      (os_path_join "./" "original_image.bmp") (y.resize IMG_RESIZE_DIM IMG_RESIZE_DIM))
      im_path = some z := by
    apply Option.isSome_iff_exists.mp
    apply fsWrite_isSome
    rw [hy]
    rfl
  have hinp : DiffEdit.inpaint_mask_with_prompt
      (fsWrite
        (fsWrite
          (fsWrite
            (fsWrite fs (os_path_join "./" "mask.bmp")
              (MaskGenerator.calc_diffedit_mask
                (ImageProcessor.img2latent (im.resize IMG_RESIZE_DIM IMG_RESIZE_DIM) VAE_CONST)
                p1 p2 n seed).1)
            (os_path_join "./" "rough_mask.bmp")
            (MaskGenerator.calc_diffedit_mask
              (ImageProcessor.img2latent (im.resize IMG_RESIZE_DIM IMG_RESIZE_DIM) VAE_CONST)
              p1 p2 n seed).2)
          (os_path_join "./" "blended_mask.bmp")
          (ImageProcessor.get_blended_mask (im.resize IMG_RESIZE_DIM IMG_RESIZE_DIM)
            (MaskGenerator.calc_diffedit_mask
              (ImageProcessor.img2latent (im.resize IMG_RESIZE_DIM IMG_RESIZE_DIM) VAE_CONST)
              p1 p2 n seed).1))
        (os_path_join "./" "original_image.bmp") (y.resize IMG_RESIZE_DIM IMG_RESIZE_DIM))
      im_path
      (MaskGenerator.calc_diffedit_mask
        (ImageProcessor.img2latent (im.resize IMG_RESIZE_DIM IMG_RESIZE_DIM) VAE_CONST)
        p1 p2 n seed).1 p2 seed =
      Except.ok (Inpainter.inpaint_mask (z.resize IMG_RESIZE_DIM IMG_RESIZE_DIM)
        (MaskGenerator.calc_diffedit_mask
          (ImageProcessor.img2latent (im.resize IMG_RESIZE_DIM IMG_RESIZE_DIM) VAE_CONST)
          p1 p2 n seed).1 p2 seed) := by
    simp [DiffEdit.inpaint_mask_with_prompt, hz, Image.copy]
  refine ⟨_, _, _, _, _, hcm, hsm, hld, hinp, ?_⟩
  simp only [DiffEdit.demo_diffedit, h, hcm, hsm, hld, hinp,
    DiffEdit.save_inpainted_image, Image.copy]

/-- C5 witness: the demo pipeline instantiated on a concrete one-image
filesystem. -/
theorem demo_diffedit_chains_full_workflow_witness :
    ((fun q => if q = "img.bmp" then some (⟨2, 2, [5, 6, 7, 8]⟩ : Image) else none : FS) "img.bmp"
      = some ⟨2, 2, [5, 6, 7, 8]⟩) ∧
    ∃ (mask rough blended inpainted : Image) (fs2 : FS),
      DiffEdit.create_mask
          (fun q => if q = "img.bmp" then some ⟨2, 2, [5, 6, 7, 8]⟩ else none)
          "img.bmp" "dog" "cat" 2 42
        = (Except.ok (mask, rough, blended),
           (fun q => if q = "img.bmp" then some ⟨2, 2, [5, 6, 7, 8]⟩ else none)) ∧
      DiffEdit.save_mask
          (fun q => if q = "img.bmp" then some ⟨2, 2, [5, 6, 7, 8]⟩ else none)
          mask rough blended "img.bmp" "./" = (Except.ok (), fs2) ∧
      DiffEdit.load_mask fs2 "./" = Except.ok (mask, rough, blended) ∧
      DiffEdit.inpaint_mask_with_prompt fs2 "img.bmp" mask "cat" 42 = Except.ok inpainted ∧
      DiffEdit.demo_diffedit
          (fun q => if q = "img.bmp" then some ⟨2, 2, [5, 6, 7, 8]⟩ else none)
          "img.bmp" "dog" "cat" 2 42 =
        (Except.ok [(⟨2, 2, [5, 6, 7, 8]⟩ : Image).resize IMG_RESIZE_DIM IMG_RESIZE_DIM,
           blended, inpainted],
         (DiffEdit.save_inpainted_image fs2 inpainted "./").2) :=
  ⟨by decide,
   demo_diffedit_chains_full_workflow
     (fun q => if q = "img.bmp" then some ⟨2, 2, [5, 6, 7, 8]⟩ else none)
     "img.bmp" "dog" "cat" 2 42 ⟨2, 2, [5, 6, 7, 8]⟩ (by decide)⟩

/-- C6: `refine_mask` is an unimplemented stub: for every filesystem, mask
and iteration count it returns `None` and leaves the filesystem untouched. -/
theorem refine_mask_stub (fs : FS) (mask : Image) (n : Nat) :
    DiffEdit.refine_mask fs mask n = (none, fs) := rfl

/-- C7: mandatory resize invariant: when the image at `im_path` exists,
`get_mask` feeds the latent encoder and the blender exactly the image
resized to `IMG_RESIZE_DIM` x `IMG_RESIZE_DIM`; that resized image has the
fixed square working resolution; `inpaint_mask_with_prompt` feeds the
inpainter the resized image; and the original image persisted by
`save_mask` has the fixed square working resolution. -/
theorem mandatory_resize_invariant (fs : FS) (im_path p1 p2 w : String)
    (im mask rough blended maskArg : Image) (seed n : Nat)
    (h : fs im_path = some im) :
    (DiffEdit.get_mask fs im_path p1 p2 seed n =
      Except.ok
        ((MaskGenerator.calc_diffedit_mask
            (ImageProcessor.img2latent (im.resize IMG_RESIZE_DIM IMG_RESIZE_DIM) VAE_CONST)
            p1 p2 n seed).1,
         (MaskGenerator.calc_diffedit_mask
            (ImageProcessor.img2latent (im.resize IMG_RESIZE_DIM IMG_RESIZE_DIM) VAE_CONST)
            p1 p2 n seed).2,
         ImageProcessor.get_blended_mask (im.resize IMG_RESIZE_DIM IMG_RESIZE_DIM)
           (MaskGenerator.calc_diffedit_mask
             (ImageProcessor.img2latent (im.resize IMG_RESIZE_DIM IMG_RESIZE_DIM) VAE_CONST)
             p1 p2 n seed).1)) ∧
    ((im.resize IMG_RESIZE_DIM IMG_RESIZE_DIM).width = IMG_RESIZE_DIM ∧
     (im.resize IMG_RESIZE_DIM IMG_RESIZE_DIM).height = IMG_RESIZE_DIM) ∧
    (DiffEdit.inpaint_mask_with_prompt fs im_path maskArg p2 seed =
      Except.ok (Inpainter.inpaint_mask (im.resize IMG_RESIZE_DIM IMG_RESIZE_DIM)
        maskArg p2 seed)) ∧
    (∃ x : Image,
      (DiffEdit.save_mask fs mask rough blended im_path w).2
          (os_path_join w "original_image.bmp") = some x ∧
        x.width = IMG_RESIZE_DIM ∧ x.height = IMG_RESIZE_DIM) := by
  refine ⟨?_, ⟨rfl, rfl⟩, ?_, ?_⟩
  · simp [DiffEdit.get_mask, h]
  · simp [DiffEdit.inpaint_mask_with_prompt, h, Image.copy]
  · have hs : ((fsWrite (fsWrite (fsWrite fs (os_path_join w "mask.bmp") mask)
        (os_path_join w "rough_mask.bmp") rough)
        (os_path_join w "blended_mask.bmp") blended) im_path).isSome := by
      apply fsWrite_isSome
      apply fsWrite_isSome
      apply fsWrite_isSome
      simp [h]
    obtain ⟨y, hy⟩ := Option.isSome_iff_exists.mp hs
    refine ⟨y.resize IMG_RESIZE_DIM IMG_RESIZE_DIM, ?_, rfl, rfl⟩
    simp only [DiffEdit.save_mask]
    rw [hy]
    exact fsWrite_same _ _ _

/-- C7 witness: a concrete one-image filesystem instantiating the
mandatory-resize theorem. -/
theorem mandatory_resize_invariant_witness :
    ((fun q => if q = "img.bmp" then some (⟨2, 2, [9, 9, 9, 9]⟩ : Image) else none : FS) "img.bmp"
      = some ⟨2, 2, [9, 9, 9, 9]⟩) ∧
    (((⟨2, 2, [9, 9, 9, 9]⟩ : Image).resize IMG_RESIZE_DIM IMG_RESIZE_DIM).width = IMG_RESIZE_DIM ∧
     ((⟨2, 2, [9, 9, 9, 9]⟩ : Image).resize IMG_RESIZE_DIM IMG_RESIZE_DIM).height
       = IMG_RESIZE_DIM) :=
  ⟨by decide,
   (mandatory_resize_invariant (fun q => if q = "img.bmp" then some ⟨2, 2, [9, 9, 9, 9]⟩ else none)
     "img.bmp" "dog" "cat" "./" ⟨2, 2, [9, 9, 9, 9]⟩ ⟨1, 1, [0]⟩ ⟨1, 1, [0]⟩ ⟨1, 1, [0]⟩
     ⟨1, 1, [0]⟩ 42 2 (by decide)).2.1⟩

/-- C8: `save_mask` writes exactly `mask.bmp`, `rough_mask.bmp`,
`blended_mask.bmp` and `original_image.bmp` in the working directory
(every other path is unchanged), and `save_inpainted_image` writes exactly
`inpainted_image.bmp` there (every other path is unchanged). -/
theorem save_operations_write_frame (fs : FS) (mask rough blended inp : Image)
    (ip w q q2 : String)
    (hq1 : q ≠ os_path_join w "mask.bmp") (hq2 : q ≠ os_path_join w "rough_mask.bmp")
    (hq3 : q ≠ os_path_join w "blended_mask.bmp")
    (hq4 : q ≠ os_path_join w "original_image.bmp")
    (hq5 : q2 ≠ os_path_join w "inpainted_image.bmp") :
    ((DiffEdit.save_mask fs mask rough blended ip w).2 q = fs q) ∧
    ((DiffEdit.save_mask fs mask rough blended ip w).2 (os_path_join w "mask.bmp")
      = some mask) ∧
    ((DiffEdit.save_mask fs mask rough blended ip w).2 (os_path_join w "rough_mask.bmp")
      = some rough) ∧
    ((DiffEdit.save_mask fs mask rough blended ip w).2 (os_path_join w "blended_mask.bmp")
      = some blended) ∧
    (∃ x : Image, (DiffEdit.save_mask fs mask rough blended ip w).2
        (os_path_join w "original_image.bmp") = some x) ∧
    ((DiffEdit.save_inpainted_image fs inp w).2 q2 = fs q2) ∧
    ((DiffEdit.save_inpainted_image fs inp w).2 (os_path_join w "inpainted_image.bmp")
      = some inp) := by
  obtain ⟨orig, hsnd⟩ := save_mask_snd fs mask rough blended ip w
  rw [hsnd]
  refine ⟨?_, ?_, ?_, ?_, ⟨orig, fsWrite_same _ _ _⟩, ?_, ?_⟩
  · rw [fsWrite_other _ _ _ _ hq4, fsWrite_other _ _ _ _ hq3,
        fsWrite_other _ _ _ _ hq2, fsWrite_other _ _ _ _ hq1]
  · rw [fsWrite_other _ _ _ _ (join_mask_ne_original w),
        fsWrite_other _ _ _ _ (join_mask_ne_blended w),
        fsWrite_other _ _ _ _ (join_mask_ne_rough w), fsWrite_same]
  · rw [fsWrite_other _ _ _ _ (join_rough_ne_original w),
        fsWrite_other _ _ _ _ (join_rough_ne_blended w), fsWrite_same]
  · rw [fsWrite_other _ _ _ _ (join_blended_ne_original w), fsWrite_same]
  · exact fsWrite_other _ _ _ _ hq5
  · exact fsWrite_same _ _ _

/-- C8 witness: a path other than the artifact paths is untouched by both
save operations. -/
theorem save_operations_write_frame_witness :
    ("other.txt" ≠ os_path_join "./" "mask.bmp") ∧
    ("other.txt" ≠ os_path_join "./" "rough_mask.bmp") ∧
    ("other.txt" ≠ os_path_join "./" "blended_mask.bmp") ∧
    ("other.txt" ≠ os_path_join "./" "original_image.bmp") ∧
    ("other.txt" ≠ os_path_join "./" "inpainted_image.bmp") ∧
    ((DiffEdit.save_mask (fun _ => none) ⟨1, 1, [1]⟩ ⟨1, 1, [2]⟩ ⟨1, 1, [3]⟩ "img.bmp" "./").2
      "other.txt" = (fun _ => none : FS) "other.txt") :=
  ⟨by decide, by decide, by decide, by decide, by decide,
   (save_operations_write_frame (fun _ => none) ⟨1, 1, [1]⟩ ⟨1, 1, [2]⟩ ⟨1, 1, [3]⟩ ⟨1, 1, [4]⟩
     "img.bmp" "./" "other.txt" "other.txt" (by decide) (by decide) (by decide) (by decide)
     (by decide)).1⟩

/-- C9: prompt embedding shape and purity: tokenization pads or truncates
every prompt to the tokenizer's fixed maximum token length (longer prompts
truncated, shorter padded), so the embedding returned by
`_get_embedding_for_prompt` always has the fixed shape
`model_max_length x EMB_DIM`; the encoder is invoked with gradient tracking
disabled (the `torch.no_grad()` block), so the autograd tape stays empty
(no side effect). -/
theorem prompt_embedding_fixed_shape (p q r : String)
    (hl : model_max_length ≤ (clip_tokenize p).length)
    (hs : (clip_tokenize q).length ≤ model_max_length) :
    (tokenizeToMaxLength p = (clip_tokenize p).take model_max_length) ∧
    (tokenizeToMaxLength q
      = clip_tokenize q
        ++ List.replicate (model_max_length - (clip_tokenize q).length) PAD_TOKEN_ID) ∧
    ((tokenizeToMaxLength r).length = model_max_length) ∧
    ((DiffEdit.get_embedding_for_prompt r).1.length = model_max_length) ∧
    ((DiffEdit.get_embedding_for_prompt r).1.all (fun row => row.length == EMB_DIM) = true) ∧
    (DiffEdit.get_embedding_for_prompt r = clip_text_encoder (tokenizeToMaxLength r) false) ∧
    ((DiffEdit.get_embedding_for_prompt r).2 = []) := by
  have hlen : ∀ s : String, (tokenizeToMaxLength s).length = model_max_length := by
    intro s
    unfold tokenizeToMaxLength
    simp only [List.length_append, List.length_take, List.length_replicate]
    omega
  refine ⟨?_, ?_, hlen r, ?_, ?_, rfl, rfl⟩
  · simp only [tokenizeToMaxLength]
    rw [Nat.sub_eq_zero_of_le hl]
    simp
  · simp only [tokenizeToMaxLength]
    rw [List.take_of_length_le hs]
  · simp only [DiffEdit.get_embedding_for_prompt, clip_text_encoder, List.length_map]
    exact hlen r
  · simp [DiffEdit.get_embedding_for_prompt, clip_text_encoder, List.all_eq_true]

set_option maxRecDepth 4000 in
/-- C9 witness: a long prompt is truncated, a short prompt padded, and the
embedding of a concrete prompt has the fixed shape. -/
theorem prompt_embedding_fixed_shape_witness :
    (model_max_length
      ≤ (clip_tokenize "a very long prompt describing in great detail the scene to be edited, listing many objects, colors and attributes over and over").length) ∧
    ((clip_tokenize "dog").length ≤ model_max_length) ∧
    ((DiffEdit.get_embedding_for_prompt "cat").1.length = model_max_length) :=
  ⟨by decide, by decide,
   (prompt_embedding_fixed_shape
     "a very long prompt describing in great detail the scene to be edited, listing many objects, colors and attributes over and over"
     "dog" "cat" (by decide) (by decide)).2.2.2.1⟩

/-- C10 counterexample: constructing `DiffEdit` with the `tokenizer`
component left as the default `None` (all other components supplied)
succeeds, because `to(device)` only touches `vae`, `text_encoder`, `unet`
and `inpainting`; so it is not true that leaving any component argument
`None` fails at construction time. -/
theorem init_none_tokenizer_succeeds :
    DiffEdit.init none (some ⟨none⟩) (some ⟨none⟩) (some ⟨none⟩) (some ⟨none⟩) none none =
      Except.ok ⟨none, some ⟨none⟩, some ⟨none⟩, some ⟨none⟩, some ⟨none⟩, none, none⟩ := rfl

/-- C10 (amended): constructing `DiffEdit` with any of `vae`,
`text_encoder`, `unet` or `inpainting` left as the default `None` fails
immediately at construction time with an `AttributeError`, because
`__init__` unconditionally invokes `to(device)`, which calls `.to` on those
four components; `tokenizer` and `scheduler` are not checked. -/
theorem init_none_core_component_fails
    (tok te vae unet inp sch : Option TorchModule) (dev : Option String)
    (h : vae = none ∨ te = none ∨ unet = none ∨ inp = none) :
    DiffEdit.init tok te vae unet inp sch dev =
      Except.error (PyErr.attributeError "NoneType object has no attribute to") := by
  cases vae <;> cases te <;> cases unet <;> cases inp <;>
    simp_all [DiffEdit.init, DiffEdit.to, moduleTo]

/-- C10 witness: leaving `vae` as `None` makes construction fail with the
`AttributeError`. -/
theorem init_none_core_component_fails_witness :
    ((none : Option TorchModule) = none ∨ (some (⟨none⟩ : TorchModule)) = none ∨
      (some (⟨none⟩ : TorchModule)) = none ∨ (some (⟨none⟩ : TorchModule)) = none) ∧
    DiffEdit.init (some ⟨none⟩) (some ⟨none⟩) none (some ⟨none⟩) (some ⟨none⟩) none none =
      Except.error (PyErr.attributeError "NoneType object has no attribute to") :=
  ⟨Or.inl rfl,
   init_none_core_component_fails (some ⟨none⟩) (some ⟨none⟩) none (some ⟨none⟩)
     (some ⟨none⟩) none none (Or.inl rfl)⟩

end DiffEditSpec
